import Mathlib

/-!
Verification development for `alarm-monitor.py` (Texecom Connect client).

The Python source is embedded shallowly: bytes are `Nat` (values 0..255 on
the wire), byte strings are `List Nat`, the mutable object state of
`TexecomConnect` is the structure `ConnState` passed explicitly, and Python
exceptions are surfaced as values of `PyExn`.  Socket reads are modelled
deterministically over the list of bytes the panel will deliver
(`ConnState.stream`): `recv n` returns `min n available` bytes, raises
`socket.timeout` when nothing is available, and raises `ValueError` on a
negative count (CPython's "negative buffersize in recv").
-/

namespace Texecom

/-- Python exception kinds that the embedded code can raise. -/
inductive PyExn
  | typeError   -- e.g. `None[0]`
  | indexError  -- e.g. `""[-1]` or list index out of range
  | valueError  -- e.g. unpacking a short header, `recv` with negative count
  | keyError    -- dict lookup miss
  | nameError   -- reading a local variable that was never assigned
  deriving DecidableEq, Repr

/-- Log lines emitted via `self.log(...)`, abstracted to tags; the claims
only need which line was printed, not its text. -/
inductive LogEv
  | disconnected       -- "Panel has forcibly dropped connection, ..."
  | badStart           -- "unexpected msg start: ..."
  | badCrc             -- "crc: expected=... actual=..."
  | respSeqMismatch    -- "response seq: expected=... actual=..."
  | msgSeqMismatch     -- "message seq: expected=... actual=..."
  | unexpectedCommand  -- "received command unexpectedly"
  deriving DecidableEq, Repr

/-- Single step of the bitwise CRC-8: shift left and, when the top bit was
set, xor with the truncated polynomial 0x85 (from the 9-bit poly 0x185). -/
def crc8_step (c : Nat) : Nat :=
  if c &&& 0x80 ≠ 0 then ((c <<< 1) ^^^ 0x85) &&& 0xff else (c <<< 1) &&& 0xff

/-- Fold one input byte into the CRC register (non-reflected, as built by
`crcmod.mkCrcFun(poly=0x185, rev=False, initCrc=0xff)`). -/
def crc8_update (c b : Nat) : Nat := crc8_step^[8] (c ^^^ b)

/-- The object's `self.crc8_func`: CRC-8, poly 0x185, not reflected,
initial register 0xff, no final xor, over a byte string. -/
def crc8_func (data : List Nat) : Nat := data.foldl crc8_update 0xff

/-- Mutable state of a `TexecomConnect` object (plus the byte stream the
panel will deliver and the trace of bytes written to the socket).
`__init__` sets `nextseq = 0`, `last_received_seq = -1`, `zone = {}`.
`last_command_time` (wall-clock) is outside the model; no claim uses it. -/
structure ConnState where
  /-- bytes the panel will deliver, in order (the socket read side) -/
  stream : List Nat
  /-- `self.s` is not `None` -/
  socketOpen : Bool
  /-- `self.nextseq` -/
  nextseq : Nat
  /-- `ord(self.last_sequence)` (sequence byte of the outstanding command) -/
  last_sequence : Nat
  /-- `self.last_received_seq` (`-1` is the startup sentinel) -/
  last_received_seq : Int
  /-- `self.last_command` (the exact bytes of the last encoded command) -/
  last_command : List Nat
  /-- every byte string passed to `self.s.send(...)`, in order -/
  sent : List (List Nat)
  /-- every payload passed to `self.message_handler_func(...)`, in order -/
  handled : List (List Nat)
  /-- log lines, in order -/
  log : List LogEv
  deriving DecidableEq, Repr

/-- Result of one modelled `self.s.recv(n)`. -/
inductive RecvRes
  | ok (bs rest : List Nat)  -- bytes returned and remaining stream
  | timeout                  -- `socket.timeout` raised (no data available)
  | negative                 -- `ValueError: negative buffersize in recv`
  deriving DecidableEq, Repr

/-- Modelled `socket.recv`: at most `n` bytes, at least one when any are
available; empty result only for `n = 0`; negative `n` raises `ValueError`;
raises `socket.timeout` when `n > 0` and no bytes are available. -/
def pyRecv (n : Int) (stream : List Nat) : RecvRes :=
  if n < 0 then .negative
  else if n = 0 then .ok [] stream
  else if stream = [] then .timeout
  else .ok (stream.take n.toNat) (stream.drop n.toNat)

/-- Outcome of `recvresponse`: a Python `return` (with its value), a
`socket.timeout` escaping to the caller, another exception escaping, or
fuel exhaustion of the loop model (unreachable for the finite streams the
claims use, since every loop iteration consumes stream bytes). -/
inductive RecvOutcome
  | ret (p : Option (List Nat))
  | timeout
  | exn (e : PyExn)
  | hang
  deriving DecidableEq, Repr

/-- One iteration of the `while True` loop of `recvresponse`
(src lines 263-308).  `Sum.inl` ends the loop (a `return` or an exception
or timeout propagating out); `Sum.inr` is "fall through and loop again"
with the updated state. -/
def recvIter (st : ConnState) : (RecvOutcome × ConnState) ⊕ ConnState :=
  match pyRecv 4 st.stream with
  | .timeout => .inl (.timeout, st)
  | .negative => .inl (.exn .valueError, st)  -- unreachable: the count is 4
  | .ok header rest =>
    -- `if header == "+++":` compares with the THREE-byte string "+++",
    -- so it only matches a short read of exactly 3 bytes.
    if header = [43, 43, 43] then
      .inl (.ret none, { st with stream := rest, socketOpen := false,
                                 log := st.log ++ [.disconnected] })
    else
      match header with
      | [msg_start, msg_type, msg_length, msg_sequence] =>
        let st1 : ConnState := { st with stream := rest }
        -- payload = self.s.recv(ord(msg_length) - self.LENGTH_HEADER)
        match pyRecv ((msg_length : Int) - 4) st1.stream with
        | .timeout => .inl (.timeout, st1)
        | .negative => .inl (.exn .valueError, st1)
        | .ok payload0 rest2 =>
          let st2 : ConnState := { st1 with stream := rest2 }
          -- payload, msg_crc = payload[:-1], ord(payload[-1])
          match payload0.getLast? with
          | none => .inl (.exn .indexError, st2)  -- payload[-1] on empty string
          | some msg_crc =>
            let payload := payload0.dropLast
            let expected_crc := crc8_func (header ++ payload)
            if msg_start ≠ 116 then          -- != 't'
              .inl (.ret none, { st2 with log := st2.log ++ [.badStart] })
            else if msg_crc ≠ expected_crc then
              .inl (.ret none, { st2 with log := st2.log ++ [.badCrc] })
            else if msg_type = 82 then       -- HEADER_TYPE_RESPONSE 'R'
              if msg_sequence ≠ st2.last_sequence then
                .inl (.ret none, { st2 with log := st2.log ++ [.respSeqMismatch] })
              else
                .inl (.ret (some payload), st2)
            else if msg_type = 77 then       -- HEADER_TYPE_MESSAGE 'M'
              if st2.last_received_seq ≠ -1 then
                let next_msg_seq : Int :=
                  if st2.last_received_seq + 1 = 256 then 0
                  else st2.last_received_seq + 1
                if (msg_sequence : Int) ≠ next_msg_seq then
                  .inl (.ret none, { st2 with log := st2.log ++ [.msgSeqMismatch] })
                else
                  .inr { st2 with last_received_seq := (msg_sequence : Int),
                                  handled := st2.handled ++ [payload] }
              else
                .inr { st2 with last_received_seq := (msg_sequence : Int),
                                handled := st2.handled ++ [payload] }
            else if msg_type = 67 then       -- HEADER_TYPE_COMMAND 'C'
              .inl (.ret none, { st2 with log := st2.log ++ [.unexpectedCommand] })
            else
              -- no branch of the if/elif chain matches: loop runs again
              .inr st2
      | _ =>
        -- `msg_start,msg_type,msg_length,msg_sequence = list(header)` with
        -- fewer than 4 bytes: ValueError (unpack)
        .inl (.exn .valueError, { st with stream := rest })

/-- Fuelled driver of the `while True` loop of `recvresponse`. -/
def recvLoop : Nat → ConnState → RecvOutcome × ConnState
  | 0, st => (.hang, st)
  | fuel + 1, st =>
    match recvIter st with
    | .inl r => r
    | .inr st1 => recvLoop fuel st1

/-- `recvresponse` (src lines 260-308).  Each continuing iteration consumes
at least one stream byte, so `stream.length + 1` units of fuel always
suffice and `.hang` is never produced. -/
def recvresponse (st : ConnState) : RecvOutcome × ConnState :=
  recvLoop (st.stream.length + 1) st

/-- Counter step of `getnextseq` (src lines 252-257) on the raw value of
`self.nextseq`: returns the sequence number handed out and the new counter.
Note the wrap test is `== 256`, checked at the START of the call, so the
stored counter itself reaches 256 before being reset. -/
def getnextseqN (n : Nat) : Nat × Nat :=
  let v := if n = 256 then 0 else n
  (v, v + 1)

/-- `getnextseq` acting on the object state. -/
def getnextseq (st : ConnState) : Nat × ConnState :=
  let p := getnextseqN st.nextseq
  (p.1, { st with nextseq := p.2 })

/-- Stored value of `self.nextseq` after `n` calls to `getnextseq` from a
fresh object (`__init__` sets it to 0). -/
def nextseqAfter : Nat → Nat
  | 0 => 0
  | n + 1 => (getnextseqN (nextseqAfter n)).2

/-- Encoded command frame built by `sendcommandbody` (src lines 312-314):
`'t' 'C' chr(len(body)+5) chr(seq) body crc`, the CRC taken over all the
preceding bytes. -/
def commandFrame (seq : Nat) (body : List Nat) : List Nat :=
  let data := [116, 67, body.length + 5, seq] ++ body
  data ++ [crc8_func data]

/-- `sendcommandbody` (src lines 310-320): assign the next sequence number,
encode, write to the socket (traced in `sent`), and remember the encoded
bytes in `last_command` for retransmission. -/
def sendcommandbody (body : List Nat) (st : ConnState) : ConnState :=
  let p := getnextseq st
  let data := commandFrame p.1 body
  { p.2 with last_sequence := p.1,
             sent := p.2.sent ++ [data],
             last_command := data }

/-- Result of the retry loop in `sendcommand` (src lines 360-372). -/
inductive LoopResult
  | got (p : Option (List Nat))  -- `recvresponse` returned; `break`
  | unassigned                   -- loop finished without assigning `response`
  | exnr (e : PyExn)             -- an exception other than timeout escaped
  | stuck                        -- fuel artifact of `recvresponse`; unreachable
  deriving DecidableEq, Repr

/-- The `retries = 3; while retries > 0:` loop of `sendcommand`: try to
receive; on `socket.timeout` log and retransmit `self.last_command`, then
loop.  Note the retransmission also happens after the LAST timeout, just
before the loop exits with `response` never assigned. -/
def retryLoop : Nat → ConnState → LoopResult × ConnState
  | 0, st => (.unassigned, st)
  | retries + 1, st =>
    match recvresponse st with
    | (.ret p, st1) => (.got p, st1)
    | (.timeout, st1) =>
        retryLoop retries { st1 with sent := st1.sent ++ [st1.last_command] }
    | (.exn e, st1) => (.exnr e, st1)
    | (.hang, st1) => (.stuck, st1)

/-- Outcome of `sendcommand`.  The Python code returns `None` both for the
"Log on NAK" case and for the wrong-command-id case; the two are
distinguished observably by the log line printed, which the constructors
`logonNak` and `wrongId` record. -/
inductive SendOutcome
  | payload (p : List Nat)  -- `return payload`
  | logonNak                -- "Received 'Log on NAK' from panel ..."; `return None`
  | wrongId                 -- "Got response for wrong command id ..."; `return None`
  | exn (e : PyExn)
  | stuck                   -- fuel artifact; unreachable
  deriving DecidableEq, Repr

/-- The response-validation tail of `sendcommand` (src lines 374-382):
`commandid,payload = response[0],response[1:]` followed by the id check,
with the special "Log on NAK" case keyed on `commandid == CMD_LOGIN` (the
response's echoed id, value 1) and `payload[0] == CMD_RESPONSE_NAK` (0x15 =
21).  `response[0]` on `None` raises TypeError; on an empty string it
raises IndexError; so does `payload[0]` on an empty payload. -/
def checkResponse (cmd : Nat) (response : Option (List Nat)) : SendOutcome :=
  match response with
  | none => .exn .typeError
  | some [] => .exn .indexError
  | some (commandid :: payload) =>
    if commandid ≠ cmd then
      if commandid = 1 then
        match payload with
        | [] => .exn .indexError
        | p0 :: _ => if p0 = 21 then .logonNak else .wrongId
      else .wrongId
    else .payload payload

/-- `sendcommand` (src lines 354-382): prepend the command id to the body
(`if body:` — for both an empty and an absent body the result is just the
id byte, so the body is modelled as a plain list), send, run the retry
loop, then validate the response.  When the loop ends with `response`
never assigned, line 374 raises `UnboundLocalError` (a `NameError`). -/
def sendcommand (cmd : Nat) (body : List Nat) (st : ConnState) :
    SendOutcome × ConnState :=
  let st1 := sendcommandbody (cmd :: body) st
  match retryLoop 3 st1 with
  | (.got p, st2) => (checkResponse cmd p, st2)
  | (.unassigned, st2) => (.exn .nameError, st2)
  | (.exnr e, st2) => (.exn e, st2)
  | (.stuck, st2) => (.stuck, st2)

/-- State of a freshly constructed and connected `TexecomConnect` object
(`__init__`, src lines 224-233) with a given pending inbound byte stream. -/
def freshState (stream : List Nat) : ConnState :=
  { stream := stream, socketOpen := true, nextseq := 0, last_sequence := 0,
    last_received_seq := -1, last_command := [], sent := [], handled := [],
    log := [] }

/-! Payload decoders. -/

/-- Whether a byte is a Python `\w` word character (ASCII `re` semantics:
letters, digits, underscore). -/
def isWordByte (b : Nat) : Bool :=
  (48 ≤ b && b ≤ 57) || (65 ≤ b && b ≤ 90) || (97 ≤ b && b ≤ 122) || b = 95

/-- Whether a byte is Python `str` whitespace (the set `strip()` removes). -/
def isSpaceByte (b : Nat) : Bool :=
  b = 32 || b = 9 || b = 10 || b = 13 || b = 11 || b = 12

/-- Helper for `re.sub(r'\W+', ' ', s)`: the flag records whether the
previous byte was part of a non-word run already replaced by a space. -/
def subNonWordAux : Bool → List Nat → List Nat
  | _, [] => []
  | inRun, b :: rest =>
    if isWordByte b then b :: subNonWordAux false rest
    else if inRun then subNonWordAux true rest
    else 32 :: subNonWordAux true rest

/-- `re.sub(r'\W+', ' ', s)`: replace each maximal nonempty run of
non-word bytes by a single space. -/
def subNonWord (s : List Nat) : List Nat := subNonWordAux false s

/-- Python `str.strip()`: drop leading and trailing whitespace. -/
def pyStrip (s : List Nat) : List Nat :=
  ((s.dropWhile isSpaceByte).reverse.dropWhile isSpaceByte).reverse

/-- The zone-text post-processing of `get_zone_details` (src lines
461-463): replace NUL by space, collapse non-word runs to single spaces,
strip.  (`replace("\x00", " ")` is subsumed by the collapse only when the
NUL adjoins other non-word bytes, so it is kept as its own pass.) -/
def zoneTextClean (s : List Nat) : List Nat :=
  pyStrip (subNonWord (s.map fun b => if b = 0 then 32 else b))

/-- Little-endian value of a byte list (low byte first). -/
def leBytes (bs : List Nat) : Nat := bs.foldr (fun b acc => b + 256 * acc) 0

/-- The length-dispatched parse of a GETZONEDETAILS response payload
(src lines 442-467, after the `sendcommand` call and `None` check):
lengths 34 / 35 / 41 select the 8- / 16- / 64-bit area-bitmap variants;
any other length logs "response wrong length" and returns `None`.
Indexing is written with `getD`; every index used is in range in its
branch, so this agrees with Python's `ord(details[i])`. -/
def get_zone_details_parse (details : List Nat) : Option (Nat × Nat × List Nat) :=
  if details.length = 34 then
    some (details.getD 0 0, details.getD 1 0, zoneTextClean (details.drop 2))
  else if details.length = 35 then
    some (details.getD 0 0,
          details.getD 1 0 + (details.getD 2 0) <<< 8,
          zoneTextClean (details.drop 3))
  else if details.length = 41 then
    some (details.getD 0 0,
          details.getD 1 0 + (details.getD 2 0) <<< 8 + (details.getD 3 0) <<< 16 +
            (details.getD 4 0) <<< 24 + (details.getD 5 0) <<< 32 +
            (details.getD 6 0) <<< 40 + (details.getD 7 0) <<< 48 +
            (details.getD 8 0) <<< 56,
          zoneTextClean (details.drop 9))
  else none

/-- Decoded fields of a log-event timestamp. -/
structure TsFields where
  seconds : Nat
  minutes : Nat
  month : Nat
  hours : Nat
  day : Nat
  year : Nat
  deriving DecidableEq, Repr

/-- The timestamp bit-field unpacking of the log-event branch of
`decode_message_to_text` (src lines 619-624). -/
def decodeTimestamp (t : Nat) : TsFields :=
  { seconds := t &&& 63
    minutes := (t >>> 6) &&& 63
    month := (t >>> 12) &&& 15
    hours := (t >>> 16) &&& 31
    day := (t >>> 21) &&& 31
    year := 2000 + ((t >>> 26) &&& 63) }

/-- `timestamp_int` (src line 618): the 32-bit little-endian integer
assembled from the four timestamp bytes. -/
def timestampInt (b0 b1 b2 b3 : Nat) : Nat :=
  b0 + (b1 <<< 8) + (b2 <<< 16) + (b3 <<< 24)

/-- Entry of the zone cache `self.zone` (populated by `get_all_zones`). -/
structure ZoneRec where
  ztype : Nat
  areas : Nat
  text : List Nat
  deriving DecidableEq, Repr

/-- Structured rendering of the strings `decode_message_to_text` returns;
each constructor carries the fields the Python code interpolates into the
corresponding format string. -/
inductive DecodedMsg
  | debug (payload : List Nat)
  | zoneEvent (zone_number : Nat) (zone_text : List Nat) (zone_bitmap : Nat)
  | zoneEventBadLength
  | areaEvent (area_number area_state : Nat)
  | outputEvent (output_location output_state : Nat)
  | userEvent (user_number user_state : Nat)
  | logEvent (event_type group_type parameter areas : Nat) (ts : TsFields)
  | logEventBadLength
  | unknownType (t : Nat)
  deriving DecidableEq, Repr

/-- `decode_message_to_text` (src lines 533-634), over the zone cache and
the raw message payload.  Python list/str indexing out of range raises
IndexError; the dict lookup `self.zone[zone_number]` raises KeyError when
the zone is not cached. -/
def decode_message_to_text (zone : Nat → Option ZoneRec) (payload0 : List Nat) :
    Except PyExn DecodedMsg :=
  match payload0 with
  | [] => .error .indexError  -- payload[0] on an empty payload
  | msg_type :: payload =>
    if msg_type = 0 then .ok (.debug payload)             -- MSG_DEBUG
    else if msg_type = 1 then                             -- MSG_ZONEEVENT
      match payload with
      | [z0, zb] =>
        match zone z0 with
        | none => .error .keyError
        | some zr => .ok (.zoneEvent z0 zr.text zb)
      | [z0, z1, zb] =>
        let zone_number := z0 + (z1 <<< 8)
        match zone zone_number with
        | none => .error .keyError
        | some zr => .ok (.zoneEvent zone_number zr.text zb)
      | _ => .ok .zoneEventBadLength
    else if msg_type = 2 then                             -- MSG_AREAEVENT
      match payload with
      | a0 :: a1 :: _ =>
        -- area_state indexes a 6-element list of state names
        if a1 < 6 then .ok (.areaEvent a0 a1) else .error .indexError
      | _ => .error .indexError
    else if msg_type = 3 then                             -- MSG_OUTPUTEVENT
      match payload with
      | o0 :: o1 :: _ => .ok (.outputEvent o0 o1)
      | _ => .error .indexError
    else if msg_type = 4 then                             -- MSG_USEREVENT
      match payload with
      | u0 :: u1 :: _ =>
        -- user_state indexes a 3-element list of state names
        if u1 < 3 then .ok (.userEvent u0 u1) else .error .indexError
      | _ => .error .indexError
    else if msg_type = 5 then                             -- MSG_LOGEVENT
      if payload.length = 8 then
        let t := timestampInt (payload.getD 4 0) (payload.getD 5 0)
                              (payload.getD 6 0) (payload.getD 7 0)
        .ok (.logEvent (payload.getD 0 0) (payload.getD 1 0)
              (payload.getD 2 0) (payload.getD 3 0) (decodeTimestamp t))
      else if payload.length = 9 then
        let t := timestampInt (payload.getD 4 0) (payload.getD 5 0)
                              (payload.getD 6 0) (payload.getD 7 0)
        .ok (.logEvent (payload.getD 0 0) (payload.getD 1 0)
              (payload.getD 2 0)
              (payload.getD 3 0 + (payload.getD 8 0) <<< 8)
              (decodeTimestamp t))
      else if payload.length = 10 then
        let t := timestampInt (payload.getD 6 0) (payload.getD 7 0)
                              (payload.getD 8 0) (payload.getD 9 0)
        .ok (.logEvent (payload.getD 0 0) (payload.getD 1 0)
              (payload.getD 2 0 + (payload.getD 3 0) <<< 8)
              (payload.getD 4 0 + (payload.getD 5 0) <<< 8)
              (decodeTimestamp t))
      else .ok .logEventBadLength
    else .ok (.unknownType msg_type)

/-- Object state carried by either arm of a `recvIter` result. -/
def iterState : (RecvOutcome × ConnState) ⊕ ConnState → ConnState
  | .inl (_, s) => s
  | .inr s => s

/-! Helper lemmas. -/

theorem recvresponse_of_inl {st : ConnState} {r : RecvOutcome × ConnState}
    (h : recvIter st = .inl r) : recvresponse st = r := by
  unfold recvresponse
  simp [recvLoop, h]

theorem recvIter_preserves (st : ConnState) :
    (iterState (recvIter st)).sent = st.sent ∧
    (iterState (recvIter st)).last_command = st.last_command ∧
    (iterState (recvIter st)).nextseq = st.nextseq := by
  unfold recvIter
  dsimp only
  repeat' split
  all_goals simp [iterState]

theorem recvLoop_preserves : ∀ (fuel : Nat) (st : ConnState),
    ((recvLoop fuel st).2).sent = st.sent ∧
    ((recvLoop fuel st).2).last_command = st.last_command ∧
    ((recvLoop fuel st).2).nextseq = st.nextseq := by
  intro fuel
  induction fuel with
  | zero => intro st; simp [recvLoop]
  | succ f ih =>
    intro st
    have hp := recvIter_preserves st
    cases h : recvIter st with
    | inl r =>
      rcases r with ⟨o, s1⟩
      rw [h] at hp
      simp only [iterState] at hp
      simp [recvLoop, h, hp]
    | inr s1 =>
      rw [h] at hp
      simp only [iterState] at hp
      have h1 := ih s1
      simp only [recvLoop, h]
      exact ⟨h1.1.trans hp.1, h1.2.1.trans hp.2.1, h1.2.2.trans hp.2.2⟩

theorem recvresponse_preserves (st : ConnState) :
    ((recvresponse st).2).sent = st.sent ∧
    ((recvresponse st).2).last_command = st.last_command ∧
    ((recvresponse st).2).nextseq = st.nextseq :=
  recvLoop_preserves _ st

/-- During the retry loop every byte string written to the socket is a
fresh copy of `last_command`, which itself never changes. -/
theorem retryLoop_sent : ∀ (r : Nat) (st : ConnState),
    ∃ k : Nat,
      ((retryLoop r st).2).sent = st.sent ++ List.replicate k st.last_command ∧
      ((retryLoop r st).2).last_command = st.last_command := by
  intro r
  induction r with
  | zero => intro st; exact ⟨0, by simp [retryLoop]⟩
  | succ n ih =>
    intro st
    have hp := recvresponse_preserves st
    rcases h : recvresponse st with ⟨o, s1⟩
    rw [h] at hp
    simp only at hp
    cases o with
    | ret p => exact ⟨0, by simp [retryLoop, h, hp.1, hp.2.1]⟩
    | timeout =>
      rcases ih { s1 with sent := s1.sent ++ [s1.last_command] } with ⟨k, hk1, hk2⟩
      refine ⟨k + 1, ?_, ?_⟩
      · simp only [retryLoop, h]
        rw [hk1]
        simp [hp.1, hp.2.1, List.replicate_succ, List.append_assoc]
      · simp only [retryLoop, h]
        rw [hk2]
        simp [hp.2.1]
    | exn e => exact ⟨0, by simp [retryLoop, h, hp.1, hp.2.1]⟩
    | hang => exact ⟨0, by simp [retryLoop, h, hp.1, hp.2.1]⟩

theorem pyRecv_four (a b c d : Nat) (rest : List Nat) :
    pyRecv 4 (a :: b :: c :: d :: rest) = .ok [a, b, c, d] rest := by
  simp [pyRecv]

theorem pyRecv_pos {n : Int} (hn : 0 < n) {stream : List Nat} (hs : stream ≠ []) :
    pyRecv n stream = .ok (stream.take n.toNat) (stream.drop n.toNat) := by
  unfold pyRecv
  rw [if_neg (by omega), if_neg (by omega), if_neg hs]

theorem getLast?_of_ne_nil {l : List Nat} (h : l ≠ []) :
    l.getLast? = some (l.getLastD 0) := by
  cases l with
  | nil => simp at h
  | cons x xs => simp [List.getLastD_eq_getLast?, List.getLast?_cons]

/-! Claim C1: the disconnect marker. -/

set_option maxRecDepth 100000 in
/-- Claim C1, counterexample: with the four header bytes '+','+','+',0x63
actually read (and payload bytes available behind them), `recvresponse`
treats the frame as a bad-start frame — logging "unexpected msg start" and
leaving the socket open — instead of surfacing the peer-disconnect result
with the socket marked closed; `header == "+++"` compares the 4-byte
header against the 3-byte literal and never matches. -/
theorem C1_counterexample :
    (recvresponse (freshState ([43, 43, 43, 99] ++ List.replicate 39 0))).1 =
      RecvOutcome.ret none ∧
    (recvresponse (freshState ([43, 43, 43, 99] ++ List.replicate 39 0))).2.socketOpen
      = true ∧
    (recvresponse (freshState ([43, 43, 43, 99] ++ List.replicate 39 0))).2.log =
      [LogEv.badStart] := by
  decide

set_option maxRecDepth 4000 in
/-- Claim C1, amended: the session-ended result (return `None` with
`self.s` cleared) is produced exactly when the header read returns the
THREE bytes '+','+','+' — a short read, possible because `recv(4)` may
return fewer bytes.  A full 4-byte header '+','+','+',(any) is instead
processed as an ordinary frame and dropped by the start-byte check, with
the socket left open. -/
theorem C1_disconnect_requires_short_read :
    (∀ st : ConnState, st.stream = [43, 43, 43] →
      recvresponse st =
        (RecvOutcome.ret none,
         { st with stream := [], socketOpen := false,
                   log := st.log ++ [LogEv.disconnected] })) ∧
    (∀ (st : ConnState) (x : Nat) (rest : List Nat),
      st.stream = 43 :: 43 :: 43 :: x :: rest → rest ≠ [] →
      (recvresponse st).1 = RecvOutcome.ret none ∧
      (recvresponse st).2.socketOpen = st.socketOpen ∧
      (recvresponse st).2.log = st.log ++ [LogEv.badStart]) := by
  constructor
  · intro st h
    apply recvresponse_of_inl
    unfold recvIter
    rw [h]
    simp [pyRecv]
  · intro st x rest h hne
    have htk : rest.take 39 ≠ [] := by simp [List.take_eq_nil_iff, hne]
    have hrecv2 : pyRecv (39 : Int) rest = .ok (rest.take 39) (rest.drop 39) := by
      rw [pyRecv_pos (by norm_num) hne]
      rfl
    obtain ⟨c, hgl⟩ : ∃ c, (rest.take 39).getLast? = some c :=
      ⟨_, getLast?_of_ne_nil htk⟩
    have hiter : recvIter st = .inl (.ret none,
        { st with stream := rest.drop 39, log := st.log ++ [LogEv.badStart] }) := by
      simp [recvIter, h, pyRecv_four, hrecv2, hgl]
    rw [recvresponse_of_inl hiter]
    simp

/-- Claim C1, witness for the amended theorem: a 3-byte stream '+','+','+'
is recognised as a disconnect, and '+','+','+',0x63 with one byte behind
it is dropped as a bad-start frame with the socket still open. -/
theorem C1_disconnect_witness :
    recvresponse (freshState [43, 43, 43]) =
      (RecvOutcome.ret none,
       { freshState [43, 43, 43] with
           stream := [], socketOpen := false,
           log := (freshState [43, 43, 43]).log ++ [LogEv.disconnected] }) ∧
    ((recvresponse (freshState [43, 43, 43, 99, 0])).1 = RecvOutcome.ret none ∧
     (recvresponse (freshState [43, 43, 43, 99, 0])).2.socketOpen =
       (freshState [43, 43, 43, 99, 0]).socketOpen ∧
     (recvresponse (freshState [43, 43, 43, 99, 0])).2.log =
       (freshState [43, 43, 43, 99, 0]).log ++ [LogEv.badStart]) :=
  ⟨C1_disconnect_requires_short_read.1 _ rfl,
   C1_disconnect_requires_short_read.2 _ 99 [0] rfl (by decide)⟩

/-! Claim C10: frames whose length byte is at most 4. -/

/-- Claim C10, counterexample: for the frame header 't','R',3,0 (length
byte 3 < 4) the code passes the negative count -1 to `recv`, which raises
ValueError, not the IndexError-from-empty-payload-split the claim states;
so for length bytes below 4 the raised exception is not IndexError. -/
theorem C10_counterexample :
    (recvresponse (freshState [116, 82, 3, 0, 9])).1 =
      RecvOutcome.exn PyExn.valueError ∧
    (recvresponse (freshState [116, 82, 3, 0, 9])).1 ≠
      RecvOutcome.exn PyExn.indexError := by
  decide

/-- Claim C10, amended: a 't'-started frame whose length byte is at most 4
makes `recvresponse` raise an unhandled exception instead of returning a
FrameShort-style error value — IndexError from splitting the CRC off the
empty payload when the length byte is exactly 4 (zero further bytes read),
and ValueError from the negative `recv` count when it is below 4.  The
length byte is trusted without validation. -/
theorem C10_trusted_length_exception :
    ∀ (st : ConnState) (t l s : Nat) (rest : List Nat),
      st.stream = 116 :: t :: l :: s :: rest → l ≤ 4 →
      (recvresponse st).1 =
        RecvOutcome.exn (if l = 4 then PyExn.indexError else PyExn.valueError) := by
  intro st t l s rest h hl
  by_cases h4 : l = 4
  · subst h4
    have hrecv0 : pyRecv (0 : Int) rest = .ok [] rest := by simp [pyRecv]
    have hiter : recvIter st = .inl (.exn .indexError, { st with stream := rest }) := by
      simp [recvIter, h, pyRecv_four, hrecv0]
    rw [recvresponse_of_inl hiter]
    simp
  · have hneg : pyRecv ((l : Int) - 4) rest = .negative := by
      unfold pyRecv
      rw [if_pos (by omega)]
    have hiter : recvIter st = .inl (.exn .valueError, { st with stream := rest }) := by
      simp [recvIter, h, pyRecv_four, hneg]
    rw [recvresponse_of_inl hiter]
    simp [h4]

/-- Claim C10, witness for the amended theorem: length byte 4 raises
IndexError; length byte 3 raises ValueError. -/
theorem C10_trusted_length_witness :
    (recvresponse (freshState [116, 82, 4, 0])).1 =
      RecvOutcome.exn (if 4 = 4 then PyExn.indexError else PyExn.valueError) ∧
    (recvresponse (freshState [116, 82, 3, 0, 9])).1 =
      RecvOutcome.exn (if 3 = 4 then PyExn.indexError else PyExn.valueError) :=
  ⟨C10_trusted_length_exception _ 82 4 0 [] rfl (by decide),
   C10_trusted_length_exception _ 82 3 0 [9] rfl (by decide)⟩

/-! Claim C3: handling of bad-start, bad-CRC and sequence-mismatch frames. -/

set_option maxRecDepth 100000 in
/-- Claim C3, counterexample: on a 6-byte bad-start frame (start byte 0x61)
`recvresponse` logs and RETURNS `None` to the caller immediately, leaving a
following, perfectly valid response frame unread in the stream; it does not
continue reading further frames.  The second conjunct shows that the very
frame it left behind would have been accepted and returned, so the error
was surfaced to the caller rather than recovered locally. -/
theorem C3_counterexample :
    ((recvresponse (freshState
        ([97, 82, 6, 0, 5, 99] ++ [116, 82, 7, 0, 23, 9, 255]))).1 =
       RecvOutcome.ret none ∧
     (recvresponse (freshState
        ([97, 82, 6, 0, 5, 99] ++ [116, 82, 7, 0, 23, 9, 255]))).2.stream =
       [116, 82, 7, 0, 23, 9, 255] ∧
     (recvresponse (freshState
        ([97, 82, 6, 0, 5, 99] ++ [116, 82, 7, 0, 23, 9, 255]))).2.log =
       [LogEv.badStart]) ∧
    (recvresponse (freshState [116, 82, 7, 0, 23, 9, 255])).1 =
      RecvOutcome.ret (some [23, 9]) := by
  decide

set_option maxRecDepth 8000 in
/-- Claim C3, amended: a frame with a bad start byte, a bad CRC, a response
sequence mismatch, or a message sequence mismatch makes `recvresponse` log
the error and return `None` to the caller at once; the receive loop does
NOT continue reading further frames past such an error (only valid
unsolicited messages are consumed locally with the loop continuing). -/
theorem C3_error_frames_return_none :
    (∀ (st : ConnState) (a b c d : Nat) (rest : List Nat),
      st.stream = a :: b :: c :: d :: rest → a ≠ 116 → 5 ≤ c → rest ≠ [] →
      (recvresponse st).1 = RecvOutcome.ret none ∧
      (recvresponse st).2.log = st.log ++ [LogEv.badStart]) ∧
    (∀ (st : ConnState) (b c d : Nat) (rest : List Nat),
      st.stream = 116 :: b :: c :: d :: rest → 5 ≤ c → rest ≠ [] →
      (rest.take (c - 4)).getLastD 0 ≠
        crc8_func ([116, b, c, d] ++ (rest.take (c - 4)).dropLast) →
      (recvresponse st).1 = RecvOutcome.ret none ∧
      (recvresponse st).2.log = st.log ++ [LogEv.badCrc]) ∧
    (∀ (st : ConnState) (c d : Nat) (rest : List Nat),
      st.stream = 116 :: 82 :: c :: d :: rest → 5 ≤ c → rest ≠ [] →
      (rest.take (c - 4)).getLastD 0 =
        crc8_func ([116, 82, c, d] ++ (rest.take (c - 4)).dropLast) →
      d ≠ st.last_sequence →
      (recvresponse st).1 = RecvOutcome.ret none ∧
      (recvresponse st).2.log = st.log ++ [LogEv.respSeqMismatch]) ∧
    (∀ (st : ConnState) (c d : Nat) (rest : List Nat),
      st.stream = 116 :: 77 :: c :: d :: rest → 5 ≤ c → rest ≠ [] →
      (rest.take (c - 4)).getLastD 0 =
        crc8_func ([116, 77, c, d] ++ (rest.take (c - 4)).dropLast) →
      st.last_received_seq ≠ -1 →
      (d : Int) ≠ (if st.last_received_seq + 1 = 256 then 0
                   else st.last_received_seq + 1) →
      (recvresponse st).1 = RecvOutcome.ret none ∧
      (recvresponse st).2.log = st.log ++ [LogEv.msgSeqMismatch]) := by
  have hpre : ∀ (c : Nat) (rest : List Nat), 5 ≤ c → rest ≠ [] →
      rest.take (c - 4) ≠ [] ∧
      pyRecv ((c : Int) - 4) rest = .ok (rest.take (c - 4)) (rest.drop (c - 4)) := by
    intro c rest hc hne
    constructor
    · intro hnil
      rcases List.take_eq_nil_iff.mp hnil with h0 | h0
      · omega
      · exact hne h0
    · rw [pyRecv_pos (by omega) hne]
      congr 2 <;> omega
  refine ⟨?_, ?_, ?_, ?_⟩
  · intro st a b c d rest h ha hc hne
    obtain ⟨htk, hrecv2⟩ := hpre c rest hc hne
    obtain ⟨x, hgl⟩ : ∃ x, (rest.take (c - 4)).getLast? = some x :=
      ⟨_, getLast?_of_ne_nil htk⟩
    have hiter : recvIter st = .inl (.ret none,
        { st with stream := rest.drop (c - 4),
                  log := st.log ++ [LogEv.badStart] }) := by
      simp [recvIter, h, pyRecv_four, hrecv2, hgl, ha]
    rw [recvresponse_of_inl hiter]
    simp
  · intro st b c d rest h hc hne hcrc
    obtain ⟨htk, hrecv2⟩ := hpre c rest hc hne
    obtain ⟨x, hgl⟩ : ∃ x, (rest.take (c - 4)).getLast? = some x :=
      ⟨_, getLast?_of_ne_nil htk⟩
    have hx : x = (rest.take (c - 4)).getLastD 0 := by
      rw [List.getLastD_eq_getLast?, hgl]
      rfl
    have hxc : x ≠ crc8_func ([116, b, c, d] ++ (rest.take (c - 4)).dropLast) :=
      hx ▸ hcrc
    have hxc2 : x ≠ crc8_func (116 :: b :: c :: d :: (rest.take (c - 4)).dropLast) := by
      simpa using hxc
    have hiter : recvIter st = .inl (.ret none,
        { st with stream := rest.drop (c - 4),
                  log := st.log ++ [LogEv.badCrc] }) := by
      simp [recvIter, h, pyRecv_four, hrecv2, hgl, hxc2]
    rw [recvresponse_of_inl hiter]
    simp
  · intro st c d rest h hc hne hcrc hd
    obtain ⟨htk, hrecv2⟩ := hpre c rest hc hne
    obtain ⟨x, hgl⟩ : ∃ x, (rest.take (c - 4)).getLast? = some x :=
      ⟨_, getLast?_of_ne_nil htk⟩
    have hx : x = (rest.take (c - 4)).getLastD 0 := by
      rw [List.getLastD_eq_getLast?, hgl]
      rfl
    have hxc : x = crc8_func ([116, 82, c, d] ++ (rest.take (c - 4)).dropLast) :=
      hx.trans hcrc
    have hxc2 : x = crc8_func (116 :: 82 :: c :: d :: (rest.take (c - 4)).dropLast) := by
      simpa using hxc
    have hiter : recvIter st = .inl (.ret none,
        { st with stream := rest.drop (c - 4),
                  log := st.log ++ [LogEv.respSeqMismatch] }) := by
      simp [recvIter, h, pyRecv_four, hrecv2, hgl, hxc2, hd]
    rw [recvresponse_of_inl hiter]
    simp
  · intro st c d rest h hc hne hcrc hlr hseq
    obtain ⟨htk, hrecv2⟩ := hpre c rest hc hne
    obtain ⟨x, hgl⟩ : ∃ x, (rest.take (c - 4)).getLast? = some x :=
      ⟨_, getLast?_of_ne_nil htk⟩
    have hx : x = (rest.take (c - 4)).getLastD 0 := by
      rw [List.getLastD_eq_getLast?, hgl]
      rfl
    have hxc : x = crc8_func ([116, 77, c, d] ++ (rest.take (c - 4)).dropLast) :=
      hx.trans hcrc
    have hxc2 : x = crc8_func (116 :: 77 :: c :: d :: (rest.take (c - 4)).dropLast) := by
      simpa using hxc
    have hiter : recvIter st = .inl (.ret none,
        { st with stream := rest.drop (c - 4),
                  log := st.log ++ [LogEv.msgSeqMismatch] }) := by
      simp [recvIter, h, pyRecv_four, hrecv2, hgl, hxc2, hlr, hseq]
    rw [recvresponse_of_inl hiter]
    simp

set_option maxRecDepth 8000 in
/-- Claim C3, witness for the amended theorem: concrete frames for all
four error kinds — bad start, bad CRC, response sequence mismatch (frame
sequence 9, outstanding command sequence 0) and message sequence mismatch
(frame sequence 9, last accepted message sequence 4). -/
theorem C3_error_frames_witness :
    ((recvresponse (freshState [97, 82, 6, 0, 5, 99])).1 =
       RecvOutcome.ret none ∧
     (recvresponse (freshState [97, 82, 6, 0, 5, 99])).2.log =
       (freshState [97, 82, 6, 0, 5, 99]).log ++ [LogEv.badStart]) ∧
    ((recvresponse (freshState [116, 82, 6, 0, 0, 105])).1 =
       RecvOutcome.ret none ∧
     (recvresponse (freshState [116, 82, 6, 0, 0, 105])).2.log =
       (freshState [116, 82, 6, 0, 0, 105]).log ++ [LogEv.badCrc]) ∧
    ((recvresponse (freshState [116, 82, 7, 9, 23, 9, 77])).1 =
       RecvOutcome.ret none ∧
     (recvresponse (freshState [116, 82, 7, 9, 23, 9, 77])).2.log =
       (freshState [116, 82, 7, 9, 23, 9, 77]).log ++ [LogEv.respSeqMismatch]) ∧
    ((recvresponse { freshState [116, 77, 7, 9, 23, 9, 124] with
         last_received_seq := 4 }).1 = RecvOutcome.ret none ∧
     (recvresponse { freshState [116, 77, 7, 9, 23, 9, 124] with
         last_received_seq := 4 }).2.log =
       ({ freshState [116, 77, 7, 9, 23, 9, 124] with
          last_received_seq := 4 } : ConnState).log ++ [LogEv.msgSeqMismatch]) :=
  ⟨C3_error_frames_return_none.1 _ 97 82 6 0 [5, 99] rfl (by decide) (by decide)
     (by decide),
   C3_error_frames_return_none.2.1 _ 82 6 0 [0, 105] rfl (by decide) (by decide)
     (by decide),
   C3_error_frames_return_none.2.2.1 _ 7 9 [23, 9, 77] rfl (by decide) (by decide)
     (by decide) (by decide),
   C3_error_frames_return_none.2.2.2 _ 7 9 [23, 9, 124] rfl (by decide) (by decide)
     (by decide) (by decide) (by decide)⟩

/-! Claim C2: log-event timestamp decoding. -/

/-- Claim C2, counterexample: decoding the 32-bit value 0x2F4A1234 with the
code's bit layout gives minutes = 8 and year = 2011, not the minutes = 0
and year = 2023 asserted by the claim's test vector. -/
theorem C2_counterexample :
    decodeTimestamp 0x2F4A1234 =
      { seconds := 52, minutes := 8, month := 1, hours := 10, day := 26, year := 2011 } ∧
    ¬((decodeTimestamp 0x2F4A1234).minutes = 0 ∧
      (decodeTimestamp 0x2F4A1234).year = 2023) := by
  decide

/-- Claim C2, amended: the 32-bit timestamp packs, from the LSB, seconds
(6 bits), minutes (6), month (4), hours (5), day (5), year offset from
2000 (6) — stated as exact reconstruction of any 32-bit input from the
decoded fields — and for the little-endian bytes 34 12 4A 2F (the integer
0x2F4A1234) the decoded fields are seconds 52, minutes 8, month 1, hours
10, day 26, year 2011. -/
theorem C2_timestamp_layout :
    (∀ t : Nat, t < 2 ^ 32 →
      (decodeTimestamp t).seconds + (decodeTimestamp t).minutes * 2 ^ 6 +
        (decodeTimestamp t).month * 2 ^ 12 + (decodeTimestamp t).hours * 2 ^ 16 +
        (decodeTimestamp t).day * 2 ^ 21 +
        ((decodeTimestamp t).year - 2000) * 2 ^ 26 = t) ∧
    timestampInt 0x34 0x12 0x4A 0x2F = 0x2F4A1234 ∧
    decodeTimestamp (timestampInt 0x34 0x12 0x4A 0x2F) =
      { seconds := 52, minutes := 8, month := 1, hours := 10, day := 26, year := 2011 } := by
  refine ⟨?_, by decide, by decide⟩
  intro t ht
  have h63 : t &&& 63 = t % 2 ^ 6 := by
    simpa using Nat.and_pow_two_sub_one_eq_mod t 6
  have h6 : (t >>> 6) &&& 63 = t / 2 ^ 6 % 2 ^ 6 := by
    simpa [Nat.shiftRight_eq_div_pow] using Nat.and_pow_two_sub_one_eq_mod (t >>> 6) 6
  have h12 : (t >>> 12) &&& 15 = t / 2 ^ 12 % 2 ^ 4 := by
    simpa [Nat.shiftRight_eq_div_pow] using Nat.and_pow_two_sub_one_eq_mod (t >>> 12) 4
  have h16 : (t >>> 16) &&& 31 = t / 2 ^ 16 % 2 ^ 5 := by
    simpa [Nat.shiftRight_eq_div_pow] using Nat.and_pow_two_sub_one_eq_mod (t >>> 16) 5
  have h21 : (t >>> 21) &&& 31 = t / 2 ^ 21 % 2 ^ 5 := by
    simpa [Nat.shiftRight_eq_div_pow] using Nat.and_pow_two_sub_one_eq_mod (t >>> 21) 5
  have h26 : (t >>> 26) &&& 63 = t / 2 ^ 26 % 2 ^ 6 := by
    simpa [Nat.shiftRight_eq_div_pow] using Nat.and_pow_two_sub_one_eq_mod (t >>> 26) 6
  simp only [decodeTimestamp, h63, h6, h12, h16, h21, h26]
  norm_num
  omega

/-- Claim C2, witness for the amended theorem: the reconstruction law at
the concrete vector. -/
theorem C2_timestamp_layout_witness :
    (decodeTimestamp 0x2F4A1234).seconds + (decodeTimestamp 0x2F4A1234).minutes * 2 ^ 6 +
      (decodeTimestamp 0x2F4A1234).month * 2 ^ 12 +
      (decodeTimestamp 0x2F4A1234).hours * 2 ^ 16 +
      (decodeTimestamp 0x2F4A1234).day * 2 ^ 21 +
      ((decodeTimestamp 0x2F4A1234).year - 2000) * 2 ^ 26 = 0x2F4A1234 :=
  C2_timestamp_layout.1 0x2F4A1234 (by norm_num)

/-! Claim C4: behaviour after 3 consecutive receive timeouts. -/

set_option maxRecDepth 100000 in
/-- Claim C4, failing input: an exchange in which every receive attempt
times out (no inbound bytes at all).  The code retransmits after EVERY
timeout, including the third and last, so the frame goes on the wire 4
times in total, and then line 374 reads the never-assigned local
`response`, raising `UnboundLocalError` — no distinguished
RetriesExhausted error value is ever returned. -/
theorem C4_retries_behaviour :
    (sendcommand 23 [] (freshState [])).1 = SendOutcome.exn PyExn.nameError ∧
    (sendcommand 23 [] (freshState [])).2.sent =
      List.replicate 4 (commandFrame 0 [23]) := by
  decide

/-! Claim C6: the outbound sequence counter. -/

set_option maxRecDepth 100000 in
/-- Claim C6, counterexample: after 256 sends from a fresh engine the
stored counter `nextseq` is 256, not 256 mod 256 = 0; the wrap happens
lazily at the start of the NEXT `getnextseq` call (the test is
`nextseq == 256`), not as a 255 to 0 post-increment wrap. -/
theorem C6_counterexample :
    nextseqAfter 256 = 256 ∧ nextseqAfter 256 ≠ 256 % 256 := by
  decide

/-- Claim C6, amended: after N sends the stored counter is N mod 256,
except at positive multiples of 256 where it transiently holds 256; the
wrap is performed at the start of the next call, so the sequence byte
handed to the (N+1)-th send is nonetheless always N mod 256; and each
`sendcommandbody` advances the counter by exactly one `getnextseqN` step. -/
theorem C6_nextseq_law :
    (∀ n : Nat, nextseqAfter n = if n = 0 then 0 else (n - 1) % 256 + 1) ∧
    (∀ n : Nat, (getnextseqN (nextseqAfter n)).1 = n % 256) ∧
    (∀ (body : List Nat) (st : ConnState),
      (sendcommandbody body st).nextseq = (getnextseqN st.nextseq).2) := by
  have hmain : ∀ n : Nat, nextseqAfter n = if n = 0 then 0 else (n - 1) % 256 + 1 := by
    intro n
    induction n with
    | zero => simp [nextseqAfter]
    | succ m ih =>
      simp only [nextseqAfter, getnextseqN, ih]
      rcases Nat.eq_zero_or_pos m with hm | hm
      · subst hm; simp
      · simp only [if_neg (Nat.pos_iff_ne_zero.mp hm), if_neg (Nat.succ_ne_zero m)]
        by_cases h : (m - 1) % 256 + 1 = 256
        · simp only [if_pos h]; omega
        · simp only [if_neg h]; omega
  refine ⟨hmain, ?_, ?_⟩
  · intro n
    rw [hmain n]
    simp only [getnextseqN]
    rcases Nat.eq_zero_or_pos n with hn | hn
    · subst hn; simp
    · simp only [if_neg (Nat.pos_iff_ne_zero.mp hn)]
      by_cases h : (n - 1) % 256 + 1 = 256
      · simp only [if_pos h]; omega
      · simp only [if_neg h]; omega
  · intro body st
    simp [sendcommandbody, getnextseq]

/-! Claim C5: retransmissions are byte-identical. -/

theorem commandFrame_getD3 (seq : Nat) (body : List Nat) :
    (commandFrame seq body).getD 3 0 = seq := by
  simp [commandFrame, List.getD]

/-- Claim C5: every byte string written to the socket during one
`sendcommand` call — the initial transmission and every retransmission
triggered by a receive timeout — is the identical encoded frame built by
`sendcommandbody`, and in particular carries the same sequence byte (the
byte at offset 3) as the original transmission. -/
theorem C5_retransmit_identical (cmd : Nat) (body : List Nat) (st : ConnState) :
    ∀ m ∈ (sendcommand cmd body st).2.sent.drop st.sent.length,
      m = commandFrame (getnextseqN st.nextseq).1 (cmd :: body) ∧
      m.getD 3 0 = (getnextseqN st.nextseq).1 := by
  intro m hm
  set D := commandFrame (getnextseqN st.nextseq).1 (cmd :: body) with hD
  set st1 := sendcommandbody (cmd :: body) st with hst1
  have hsent1 : st1.sent = st.sent ++ [D] ∧ st1.last_command = D := by
    rw [hst1, hD]
    simp [sendcommandbody, getnextseq]
  have hfinal : (sendcommand cmd body st).2 = (retryLoop 3 st1).2 := by
    rcases hr : retryLoop 3 st1 with ⟨lr, st2⟩
    cases lr <;> simp [sendcommand, ← hst1, hr]
  rcases retryLoop_sent 3 st1 with ⟨k, hk1, hk2⟩
  rw [hfinal, hk1, hsent1.1, hsent1.2] at hm
  rw [List.append_assoc, List.drop_left] at hm
  have hmD : m = D := by
    rcases List.mem_append.mp hm with hmem | hmem
    · simpa using hmem
    · exact List.eq_of_mem_replicate hmem
  exact ⟨hmD, by rw [hmD, hD]; exact commandFrame_getD3 _ _⟩

set_option maxRecDepth 100000 in
/-- Claim C5, witness: a command exchange where every receive attempt times
out, so the frame is sent four times; each sent byte string is the encoded
frame for sequence 0 and its byte at offset 3 is that sequence. -/
theorem C5_retransmit_witness :
    commandFrame 0 [23] ∈
      (sendcommand 23 [] (freshState [])).2.sent.drop (freshState []).sent.length ∧
    (commandFrame 0 [23] =
       commandFrame (getnextseqN (freshState []).nextseq).1 (23 :: []) ∧
     (commandFrame 0 [23]).getD 3 0 = (getnextseqN (freshState []).nextseq).1) :=
  ⟨by decide, C5_retransmit_identical 23 [] (freshState []) _ (by decide)⟩

/-! Claim C8: the response-id check and the "Log on NAK" special case. -/

set_option maxRecDepth 100000 in
/-- Claim C8, counterexample: the special case is keyed on the RESPONSE's
echoed id, not on the command that was sent.  First conjunct: the original
command is GETDATETIME (0x17), the response body is 0x01 0x15 (echo id
LOGIN, NAK) — the code surfaces the "Log on NAK" session-expired error,
where the claim requires the plain wrong-command-id error.  Second
conjunct: the original command IS LOGIN (0x01, UDL byte 0x34) and the
mismatched response body 0x17 0x15 carries a NAK — the code surfaces the
wrong-command-id error, where the claim requires LoginRejected. -/
theorem C8_counterexample :
    (sendcommand 23 [] (freshState [116, 82, 7, 0, 1, 21, 10])).1 =
      SendOutcome.logonNak ∧
    (sendcommand 1 [52] (freshState [116, 82, 7, 0, 23, 21, 52])).1 =
      SendOutcome.wrongId := by
  decide

/-- Claim C8, amended: when the first byte of the response body does not
equal the sent command id, `sendcommand` returns an error rather than a
payload; the special case surfacing the "Log on NAK" session-expired error
instead of the wrong-command-id error triggers exactly when the response's
echoed id equals `CMD_LOGIN` (1) and the next response byte is NAK (0x15) —
regardless of which command was originally sent. -/
theorem C8_wrong_id_errors (cmd : Nat) (body : List Nat) (st : ConnState)
    (r0 r1 : Nat) (rs : List Nat)
    (hrecv : (recvresponse (sendcommandbody (cmd :: body) st)).1 =
      RecvOutcome.ret (some (r0 :: r1 :: rs)))
    (hne : r0 ≠ cmd) :
    (sendcommand cmd body st).1 =
      if r0 = 1 ∧ r1 = 21 then SendOutcome.logonNak else SendOutcome.wrongId := by
  rcases hp : recvresponse (sendcommandbody (cmd :: body) st) with ⟨o, s2⟩
  rw [hp] at hrecv
  simp only at hrecv
  subst hrecv
  have hloop : retryLoop 3 (sendcommandbody (cmd :: body) st) =
      (.got (some (r0 :: r1 :: rs)), s2) := by
    simp [retryLoop, hp]
  simp only [sendcommand, hloop]
  simp only [checkResponse]
  rw [if_pos hne]
  by_cases h1 : r0 = 1
  · subst h1
    by_cases h2 : r1 = 21 <;> simp [h2]
  · simp [h1]

set_option maxRecDepth 100000 in
/-- Claim C8, witness for the amended theorem: a GETDATETIME exchange whose
response body echoes LOGIN followed by NAK ends in the session-expired
error branch. -/
theorem C8_wrong_id_witness :
    (sendcommand 23 [] (freshState [116, 82, 7, 0, 1, 21, 10])).1 =
      if (1 : Nat) = 1 ∧ (21 : Nat) = 21 then SendOutcome.logonNak
      else SendOutcome.wrongId :=
  C8_wrong_id_errors 23 [] (freshState [116, 82, 7, 0, 1, 21, 10]) 1 21 []
    (by decide) (by decide)

/-! Claim C7: zone-details variant selection. -/

/-- Claim C7: a zone-details response payload of length 34 parses as
(byte 0, byte 1 as an 8-bit little-endian bitmap, text from offset 2);
length 35 as (byte 0, bytes 1..2 as 16-bit little-endian, text from offset
3); length 41 as (byte 0, bytes 1..8 as 64-bit little-endian, text from
offset 9); every other length yields a parse error (`none`). -/
theorem C7_zone_details_variants (details : List Nat) :
    (details.length = 34 → get_zone_details_parse details =
      some (details.getD 0 0, leBytes ((details.drop 1).take 1),
            zoneTextClean (details.drop 2))) ∧
    (details.length = 35 → get_zone_details_parse details =
      some (details.getD 0 0, leBytes ((details.drop 1).take 2),
            zoneTextClean (details.drop 3))) ∧
    (details.length = 41 → get_zone_details_parse details =
      some (details.getD 0 0, leBytes ((details.drop 1).take 8),
            zoneTextClean (details.drop 9))) ∧
    (details.length ≠ 34 → details.length ≠ 35 → details.length ≠ 41 →
      get_zone_details_parse details = none) := by
  refine ⟨?_, ?_, ?_, ?_⟩
  · intro h34
    rcases details with _ | ⟨d0, _ | ⟨d1, rest⟩⟩ <;> simp_all
    simp only [get_zone_details_parse]
    rw [if_pos (by simp; omega)]
    simp [leBytes]
  · intro h35
    rcases details with _ | ⟨d0, _ | ⟨d1, _ | ⟨d2, rest⟩⟩⟩ <;> simp_all
    simp only [get_zone_details_parse]
    rw [if_neg (by simp; omega), if_pos (by simp; omega)]
    simp [leBytes, Nat.shiftLeft_eq]
    ring
  · intro h41
    rcases details with
      _ | ⟨d0, _ | ⟨d1, _ | ⟨d2, _ | ⟨d3, _ | ⟨d4, _ | ⟨d5, _ | ⟨d6, _ | ⟨d7, _ | ⟨d8, rest⟩⟩⟩⟩⟩⟩⟩⟩⟩ <;>
      simp_all
    simp only [get_zone_details_parse]
    rw [if_neg (by simp; omega), if_neg (by simp; omega), if_pos (by simp; omega)]
    simp [leBytes, Nat.shiftLeft_eq]
    ring
  · intro h1 h2 h3
    simp [get_zone_details_parse, h1, h2, h3]

/-- Claim C7, witness: the three variants and the error case at concrete
payloads. -/
theorem C7_zone_details_witness :
    get_zone_details_parse (3 :: 7 :: List.replicate 32 65) =
      some (3, 7, List.replicate 32 65) ∧
    get_zone_details_parse (3 :: 7 :: 1 :: List.replicate 32 66) =
      some (3, 263, List.replicate 32 66) ∧
    get_zone_details_parse (3 :: 7 :: 0 :: 0 :: 0 :: 0 :: 1 :: 0 :: 0 ::
        List.replicate 32 67) =
      some (3, 1099511627783, List.replicate 32 67) ∧
    get_zone_details_parse [1, 2, 3] = none := by
  refine ⟨?_, ?_, ?_, ?_⟩
  · exact ((C7_zone_details_variants _).1 (by simp)).trans (by decide)
  · exact ((C7_zone_details_variants _).2.1 (by simp)).trans (by decide)
  · exact ((C7_zone_details_variants _).2.2.1 (by simp)).trans (by decide)
  · exact (C7_zone_details_variants _).2.2.2 (by simp) (by simp) (by simp)

/-! Claim C9: zone events whose zone number is not cached. -/

/-- Claim C9: for a zone event message (type byte 1) in either the 2-byte
or the 3-byte variant, when the zone number is missing from the zone
cache, `decode_message_to_text` raises KeyError (the unguarded
`self.zone[zone_number]` lookup) instead of returning a decoded string. -/
theorem C9_uncached_zone_keyerror (zone : Nat → Option ZoneRec) :
    (∀ a b : Nat, zone a = none →
      decode_message_to_text zone [1, a, b] = .error .keyError) ∧
    (∀ a b c : Nat, zone (a + (b <<< 8)) = none →
      decode_message_to_text zone [1, a, b, c] = .error .keyError) := by
  constructor
  · intro a b h
    simp [decode_message_to_text, h]
  · intro a b c h
    simp [decode_message_to_text, h]

/-- Claim C9, witness: an empty cache (as before `get_all_zones` runs) and
concrete 2- and 3-byte zone events. -/
theorem C9_uncached_zone_witness :
    decode_message_to_text (fun _ => none) [1, 5, 1] = .error .keyError ∧
    decode_message_to_text (fun _ => none) [1, 0, 1, 0] = .error .keyError :=
  ⟨(C9_uncached_zone_keyerror (fun _ => none)).1 5 1 rfl,
   (C9_uncached_zone_keyerror (fun _ => none)).2 0 1 0 rfl⟩

end Texecom
